import Mathlib

/-!
Rotating-key attendance server (`src/server/index.js`).

A shallow embedding of the session store, the rotation scheduler, the key-sync
override, the QR issuer and the attendance submission handler.

Modelling conventions.
* SQLite tables are lists of rows; `db.get ... WHERE id = ?` is `List.find?`,
  `UPDATE ... WHERE id = ?` is a `List.map` over the table.
* Epoch-millisecond timestamps are `Int` (JavaScript numbers are exact on the
  range timestamps live in).
* Every `nowMs()` call of the source is an explicit argument; a handler that
  reads the clock twice takes two arguments.
* Every `uuidv4()` call of the source is an explicit argument.
* `jwt.verify` and `JSON.parse` are the two fields of `Env`.
* JavaScript truthiness of a request field: a string is falsy iff it is empty,
  a number iff it is zero.
* Storage faults other than the uniqueness violation are not modelled.
-/

namespace PE3

/-- Row of the `sessions` table (lines 50-60). -/
structure Session where
  id : String
  class_id : String
  start_ts : Int
  end_ts : Int
  rotating_key : String
  rotating_updated_ts : Int
  prev_rotating_key : Option String
  prev_rotating_updated_ts : Option Int
deriving DecidableEq, Repr

/-- Row of the `students` table (lines 44-49). -/
structure Student where
  id : String
  name : String
  class_id : String
deriving DecidableEq, Repr

/-- Row of the `attendance` table (lines 61-69). -/
structure AttendanceRow where
  id : String
  session_id : String
  student_id : String
  scan_ts : Int
deriving DecidableEq, Repr

/-- The tables the core reads and writes. -/
structure Db where
  students : List Student
  sessions : List Session
  attendance : List AttendanceRow
deriving DecidableEq, Repr

/-- Server state: the database and the `sessionRotators` map (line 33),
sessionId to intervalId. -/
structure Server where
  db : Db
  sessionRotators : List (String × Nat)
deriving DecidableEq, Repr

/-- Fields destructured from a decoded token (line 255). -/
structure Decoded where
  sessionId : String
  key : String
deriving DecidableEq, Repr

/-- External token decoders used at lines 253-254. -/
structure Env where
  jwtVerify : String → Option Decoded
  jsonParse : String → Option Decoded

/-- Error bodies sent by the handlers, one constructor per message. -/
inductive Reject where
  | missingFields
  | invalidToken
  | studentNotFound
  | sessionNotFound
  | sessionNotSynced
  | staleToken
  | outsideWindow
  | sessionEnded
deriving DecidableEq, Repr

/-- Body of the QR response (lines 242-245), the signed token shown as its
payload. -/
structure QrData where
  sessionId : String
  key : String
  ts : Int
  payloadExpSec : Nat
  keyPreview : String
  refreshedAt : Int
  currentKey : String
  keyTs : Int
deriving DecidableEq, Repr

/-- Responses of the handlers. -/
inductive Response where
  | ok
  | duplicate
  | noop
  | qr (d : QrData)
  | error (r : Reject)
deriving DecidableEq, Repr

/-- Line 78. -/
def addMinutes (ts minutes : Int) : Int := ts + minutes * 60 * 1000

/-- The query `SELECT * FROM sessions WHERE id = ?`. -/
def getSession (db : Db) (sessionId : String) : Option Session :=
  db.sessions.find? (fun s => decide (s.id = sessionId))

/-- The query `SELECT * FROM students WHERE id = ?`. -/
def getStudent (db : Db) (studentId : String) : Option Student :=
  db.students.find? (fun s => decide (s.id = studentId))

/-- The statement `UPDATE sessions SET prev_rotating_key = ?,
prev_rotating_updated_ts = ?, rotating_key = ?, rotating_updated_ts = ?
WHERE id = ?` (lines 88 and 223). -/
def updateSessionKeys (db : Db) (prevKey : String) (prevTs : Int) (key : String) (ts : Int)
    (sessionId : String) : Db :=
  { db with
    sessions := db.sessions.map (fun s =>
      if s.id = sessionId then
        { s with
          prev_rotating_key := some prevKey
          prev_rotating_updated_ts := some prevTs
          rotating_key := key
          rotating_updated_ts := ts }
      else s) }

/-- The statement `INSERT INTO attendance ...` (line 274): `none` when the
primary key or the `UNIQUE(session_id, student_id)` constraint rejects the row,
both of which raise an error whose text contains `UNIQUE`. -/
def insertAttendance (db : Db) (row : AttendanceRow) : Option Db :=
  if db.attendance.any (fun a => decide (a.id = row.id)) then none
  else if db.attendance.any
      (fun a => decide (a.session_id = row.session_id ∧ a.student_id = row.student_id)) then none
  else some { db with attendance := db.attendance ++ [row] }

/-- Row inserted by the session-start handler (lines 205-209): `start` and
`keyTs` are its two clock reads. -/
def newSession (sessionId classId rotatingKey : String) (start keyTs : Int) : Session :=
  { id := sessionId
    class_id := classId
    start_ts := start
    end_ts := addMinutes start 90
    rotating_key := rotatingKey
    rotating_updated_ts := keyTs
    prev_rotating_key := none
    prev_rotating_updated_ts := none }

/-- The call `sessionRotators.has`. -/
def rotatorsHas (m : List (String × Nat)) (sessionId : String) : Bool :=
  m.any (fun e => decide (e.1 = sessionId))

/-- The call `sessionRotators.delete`. -/
def rotatorsDelete (m : List (String × Nat)) (sessionId : String) : List (String × Nat) :=
  m.filter (fun e => !decide (e.1 = sessionId))

/-- Lines 80-93 without the timer body: arm the rotation of a session unless
it is armed already. `intervalId` is the value `setInterval` returns. -/
def startSessionRotation (srv : Server) (sessionId : String) (_endTs : Int) (intervalId : Nat) :
    Server :=
  if rotatorsHas srv.sessionRotators sessionId then srv
  else { srv with sessionRotators := srv.sessionRotators ++ [(sessionId, intervalId)] }

/-- One firing of the timer body (lines 82-90). `now1` is the clock read of
line 86, `now2` the clock read of line 88, `newKey` the result of `uuidv4()`. -/
def rotate (srv : Server) (sessionId : String) (newKey : String) (now1 now2 : Int) : Server :=
  match getSession srv.db sessionId with
  | none => { srv with sessionRotators := rotatorsDelete srv.sessionRotators sessionId }
  | some s =>
    if now1 > s.end_ts then
      { srv with sessionRotators := rotatorsDelete srv.sessionRotators sessionId }
    else
      { srv with
        db := updateSessionKeys srv.db s.rotating_key s.rotating_updated_ts newKey now2 sessionId }

/-- Handler of `POST /api/sessions/key-sync` (lines 215-225), for a numeric
`currentKeyTimestamp`: `ts` of line 220 is the field itself, always finite, and
`rotating_updated_ts || 0` is `rotating_updated_ts`. -/
def postSessionsKeySync (srv : Server) (sessionId currentKey : String)
    (currentKeyTimestamp : Int) : Server × Response :=
  if sessionId = "" ∨ currentKey = "" ∨ currentKeyTimestamp = 0 then
    (srv, Response.error Reject.missingFields)
  else
    match getSession srv.db sessionId with
    | none => (srv, Response.error Reject.sessionNotFound)
    | some session =>
      if currentKeyTimestamp ≤ session.rotating_updated_ts ∧ currentKey = session.rotating_key then
        (srv, Response.noop)
      else
        ({ srv with
           db := updateSessionKeys srv.db session.rotating_key session.rotating_updated_ts
                   currentKey currentKeyTimestamp sessionId },
         Response.ok)

/-- Handler of `POST /api/sessions/qr` (lines 237-246). `now1` is the clock
read of line 241, `now2` the one of line 242. `keyPreview` is `slice(0, 8)` for
keys made of characters of the Basic Multilingual Plane, as uuids are; for
other keys `slice` counts UTF-16 units and the field is outside the model. -/
def postSessionsQr (srv : Server) (sessionId : String) (now1 now2 : Int) : Server × Response :=
  match getSession srv.db sessionId with
  | none => (srv, Response.error Reject.sessionNotFound)
  | some session =>
    if now1 > session.end_ts then (srv, Response.error Reject.sessionEnded)
    else
      (srv, Response.qr
        { sessionId := sessionId
          key := session.rotating_key
          ts := now2
          payloadExpSec := 10800
          keyPreview := session.rotating_key.take 8
          refreshedAt := session.rotating_updated_ts
          currentKey := session.rotating_key
          keyTs := session.rotating_updated_ts })

/-- Lines 253-254: signature verification first, plain JSON as fallback. -/
def decodeToken (env : Env) (token : String) : Option Decoded :=
  match env.jwtVerify token with
  | some d => some d
  | none => env.jsonParse token

/-- Lines 262-265: the timestamp of the generation the key matches, `none`
for the `stale token` branch. -/
def keyTsOf (session : Session) (key : String) : Option Int :=
  if key = session.rotating_key then some session.rotating_updated_ts
  else
    match session.prev_rotating_key with
    | none => none
    | some prev =>
      if prev ≠ "" ∧ key = prev then
        some (match session.prev_rotating_updated_ts with
              | none => 0
              | some t => t)
      else none

/-- Handler of `POST /api/attendance` (lines 249-280). `now` is the clock
read of line 261, `newId` the result of `uuidv4()` at line 274. -/
def postAttendance (env : Env) (srv : Server) (studentId token : String) (scanTs : Int)
    (now : Int) (newId : String) : Server × Response :=
  if studentId = "" ∨ token = "" ∨ scanTs = 0 then (srv, Response.error Reject.missingFields)
  else
    match decodeToken env token with
    | none => (srv, Response.error Reject.invalidToken)
    | some decoded =>
      match getStudent srv.db studentId with
      | none => (srv, Response.error Reject.studentNotFound)
      | some _ =>
        match getSession srv.db decoded.sessionId with
        | none => (srv, Response.error Reject.sessionNotSynced)
        | some session =>
          match keyTsOf session decoded.key with
          | none => (srv, Response.error Reject.staleToken)
          | some keyTs =>
            if scanTs - keyTs > 40000 then (srv, Response.error Reject.staleToken)
            else if now - keyTs > 40000 then (srv, Response.error Reject.staleToken)
            else if scanTs < session.start_ts ∨ scanTs > session.end_ts then
              (srv, Response.error Reject.outsideWindow)
            else
              match insertAttendance srv.db
                  { id := newId
                    session_id := decoded.sessionId
                    student_id := studentId
                    scan_ts := scanTs } with
              | some db1 => ({ srv with db := db1 }, Response.ok)
              | none => (srv, Response.duplicate)

/-- Operations of the core, each carrying the request and the values the
handler draws from the clock and from `uuidv4()`. -/
inductive Op where
  | submit (studentId token : String) (scanTs now : Int) (newId : String)
  | tick (sessionId newKey : String) (now1 now2 : Int)
  | sync (sessionId currentKey : String) (currentKeyTimestamp : Int)
  | issue (sessionId : String) (now1 now2 : Int)
  | arm (sessionId : String) (endTs : Int) (intervalId : Nat)

/-- State after one operation. -/
def step (env : Env) (srv : Server) : Op → Server
  | Op.submit studentId token scanTs now newId =>
      (postAttendance env srv studentId token scanTs now newId).1
  | Op.tick sessionId newKey now1 now2 => rotate srv sessionId newKey now1 now2
  | Op.sync sessionId currentKey ts => (postSessionsKeySync srv sessionId currentKey ts).1
  | Op.issue sessionId now1 now2 => (postSessionsQr srv sessionId now1 now2).1
  | Op.arm sessionId endTs intervalId => startSessionRotation srv sessionId endTs intervalId

/-- State after a finite sequence of operations. -/
def run (env : Env) (srv : Server) (ops : List Op) : Server :=
  ops.foldl (step env) srv

/-- Number of attendance facts of a student in a session. -/
def factCount (srv : Server) (sessionId studentId : String) : Nat :=
  (srv.db.attendance.filter
    (fun a => decide (a.session_id = sessionId ∧ a.student_id = studentId))).length

/-- Decoders of the examples: signature verification always fails and the
plain fallback decodes three tokens of session `sess`, one per secret. -/
def demoEnv : Env :=
  { jwtVerify := fun _ => none
    jsonParse := fun t =>
      if t = "tok0" then some { sessionId := "sess", key := "S0" }
      else if t = "tok1" then some { sessionId := "sess", key := "S1" }
      else if t = "tok2" then some { sessionId := "sess", key := "S2" }
      else none }

/-- Scenario A: one student, session `sess` created at t = 0 with secret `S0`,
rotation armed. -/
def srvA : Server :=
  { db :=
      { students := [{ id := "stu", name := "Ann", class_id := "c1" }]
        sessions := [newSession "sess" "c1" "S0" 0 0]
        attendance := [] }
    sessionRotators := [("sess", 1)] }

/-- Scenarios B and C: the state after the rotation tick at t = 40000. -/
def srvB : Server := rotate srvA "sess" "S1" 40000 40000

/-- The state after a second rotation tick, at t = 80000. -/
def srvC : Server := rotate srvB "sess" "S2" 80000 80000

end PE3

/-! ## Lemmas on the tables -/

namespace PE3

theorem getSession_id {db : Db} {sessionId : String} {s : Session}
    (h : getSession db sessionId = some s) : s.id = sessionId := by
  unfold getSession at h
  have := List.find?_some h
  simpa using this

theorem find_map_update (l : List Session) (sessionId : String) (f : Session → Session)
    (hf : ∀ s, (f s).id = s.id) :
    (l.map (fun s => if s.id = sessionId then f s else s)).find?
        (fun s => decide (s.id = sessionId))
      = (l.find? (fun s => decide (s.id = sessionId))).map f := by
  induction l with
  | nil => rfl
  | cons a l ih =>
    by_cases h : a.id = sessionId
    · simp [List.find?, h, hf]
    · simp [List.find?, h, ih]

theorem getSession_updateSessionKeys (db : Db) (prevKey : String) (prevTs : Int) (key : String)
    (ts : Int) (sessionId : String) :
    getSession (updateSessionKeys db prevKey prevTs key ts sessionId) sessionId
      = (getSession db sessionId).map (fun s =>
          { s with
            prev_rotating_key := some prevKey
            prev_rotating_updated_ts := some prevTs
            rotating_key := key
            rotating_updated_ts := ts }) := by
  unfold getSession updateSessionKeys
  exact find_map_update db.sessions sessionId _ (fun _ => rfl)

theorem updateSessionKeys_attendance (db : Db) (prevKey : String) (prevTs : Int) (key : String)
    (ts : Int) (sessionId : String) :
    (updateSessionKeys db prevKey prevTs key ts sessionId).attendance = db.attendance := rfl

theorem updateSessionKeys_students (db : Db) (prevKey : String) (prevTs : Int) (key : String)
    (ts : Int) (sessionId : String) :
    (updateSessionKeys db prevKey prevTs key ts sessionId).students = db.students := rfl

theorem rotate_installs (srv : Server) (sessionId newKey : String) (now1 now2 : Int) (s : Session)
    (hs : getSession srv.db sessionId = some s) (hnow : now1 ≤ s.end_ts) :
    rotate srv sessionId newKey now1 now2 =
      { srv with
        db := updateSessionKeys srv.db s.rotating_key s.rotating_updated_ts newKey now2
                sessionId } := by
  unfold rotate
  simp [hs, not_lt.mpr hnow]

theorem rotate_getSession (srv : Server) (sessionId newKey : String) (now1 now2 : Int)
    (s : Session) (hs : getSession srv.db sessionId = some s) (hnow : now1 ≤ s.end_ts) :
    getSession (rotate srv sessionId newKey now1 now2).db sessionId =
      some { s with
             prev_rotating_key := some s.rotating_key
             prev_rotating_updated_ts := some s.rotating_updated_ts
             rotating_key := newKey
             rotating_updated_ts := now2 } := by
  rw [rotate_installs srv sessionId newKey now1 now2 s hs hnow]
  simp [getSession_updateSessionKeys, hs]

theorem rotate_attendance (srv : Server) (sessionId newKey : String) (now1 now2 : Int) :
    (rotate srv sessionId newKey now1 now2).db.attendance = srv.db.attendance := by
  unfold rotate
  split
  · rfl
  · split <;> rfl

theorem rotate_students (srv : Server) (sessionId newKey : String) (now1 now2 : Int) :
    (rotate srv sessionId newKey now1 now2).db.students = srv.db.students := by
  unfold rotate
  split
  · rfl
  · split <;> rfl

/-- A submission whose key matches no generation is answered `stale token`
once the field, token, student and session checks have passed. -/
theorem postAttendance_no_match (env : Env) (srv : Server) (studentId token : String)
    (scanTs now : Int) (newId : String) (d : Decoded) (stu : Student) (s : Session)
    (hid : studentId ≠ "") (htok : token ≠ "") (hscan : scanTs ≠ 0)
    (hdec : decodeToken env token = some d)
    (hstu : getStudent srv.db studentId = some stu)
    (hses : getSession srv.db d.sessionId = some s)
    (hkey : keyTsOf s d.key = none) :
    postAttendance env srv studentId token scanTs now newId
      = (srv, Response.error Reject.staleToken) := by
  unfold postAttendance
  simp [hid, htok, hscan, hdec, hstu, hses, hkey]

/-- Shape of the answer once the key matched a generation with timestamp `t`. -/
theorem postAttendance_match (env : Env) (srv : Server) (studentId token : String)
    (scanTs now : Int) (newId : String) (d : Decoded) (stu : Student) (s : Session) (t : Int)
    (hid : studentId ≠ "") (htok : token ≠ "") (hscan : scanTs ≠ 0)
    (hdec : decodeToken env token = some d)
    (hstu : getStudent srv.db studentId = some stu)
    (hses : getSession srv.db d.sessionId = some s)
    (hkey : keyTsOf s d.key = some t) :
    postAttendance env srv studentId token scanTs now newId =
      if scanTs - t > 40000 then (srv, Response.error Reject.staleToken)
      else if now - t > 40000 then (srv, Response.error Reject.staleToken)
      else if scanTs < s.start_ts ∨ scanTs > s.end_ts then
        (srv, Response.error Reject.outsideWindow)
      else
        match insertAttendance srv.db
            { id := newId, session_id := d.sessionId, student_id := studentId,
              scan_ts := scanTs } with
        | some db1 => ({ srv with db := db1 }, Response.ok)
        | none => (srv, Response.duplicate) := by
  unfold postAttendance
  simp [hid, htok, hscan, hdec, hstu, hses, hkey]

/-- A matched key whose timestamp `t` is more than 40000 behind `scanTs` or
behind `now` is answered `stale token`. -/
theorem postAttendance_late (env : Env) (srv : Server) (studentId token : String)
    (scanTs now : Int) (newId : String) (d : Decoded) (stu : Student) (s : Session) (t : Int)
    (hid : studentId ≠ "") (htok : token ≠ "") (hscan : scanTs ≠ 0)
    (hdec : decodeToken env token = some d)
    (hstu : getStudent srv.db studentId = some stu)
    (hses : getSession srv.db d.sessionId = some s)
    (hkey : keyTsOf s d.key = some t)
    (hlate : scanTs - t > 40000 ∨ now - t > 40000) :
    postAttendance env srv studentId token scanTs now newId
      = (srv, Response.error Reject.staleToken) := by
  rw [postAttendance_match env srv studentId token scanTs now newId d stu s t hid htok hscan
    hdec hstu hses hkey]
  rcases hlate with h | h
  · rw [if_pos h]
  · by_cases h1 : scanTs - t > 40000
    · rw [if_pos h1]
    · rw [if_neg h1, if_pos h]

/-- Every answer of the submission handler other than `ok` leaves the state
as it was. -/
theorem postAttendance_state (env : Env) (srv : Server) (studentId token : String)
    (scanTs now : Int) (newId : String) :
    (postAttendance env srv studentId token scanTs now newId).2 = Response.ok ∨
      (postAttendance env srv studentId token scanTs now newId).1 = srv := by
  unfold postAttendance
  repeat' split
  all_goals first | exact Or.inl rfl | exact Or.inr rfl

/-- An accepting answer (`ok` or `duplicate`) is given only after every check
passed. -/
theorem postAttendance_accept_inv (env : Env) (srv : Server) (studentId token : String)
    (scanTs now : Int) (newId : String)
    (h : (postAttendance env srv studentId token scanTs now newId).2 = Response.ok ∨
         (postAttendance env srv studentId token scanTs now newId).2 = Response.duplicate) :
    ∃ d stu s t, decodeToken env token = some d ∧ getStudent srv.db studentId = some stu ∧
      getSession srv.db d.sessionId = some s ∧ keyTsOf s d.key = some t ∧
      scanTs ≠ 0 ∧ scanTs - t ≤ 40000 ∧ now - t ≤ 40000 ∧
      s.start_ts ≤ scanTs ∧ scanTs ≤ s.end_ts := by
  unfold postAttendance at h
  split at h
  · simp at h
  · rename_i hwf
    split at h
    · simp at h
    · rename_i d hd
      split at h
      · simp at h
      · rename_i stu hstu
        split at h
        · simp at h
        · rename_i s hs
          split at h
          · simp at h
          · rename_i t ht
            split at h
            · simp at h
            · rename_i h1
              split at h
              · simp at h
              · rename_i h2
                split at h
                · simp at h
                · rename_i h3
                  refine ⟨d, stu, s, t, hd, hstu, hs, ht, ?_, ?_, ?_, ?_, ?_⟩
                  · intro h0; exact hwf (Or.inr (Or.inr h0))
                  · omega
                  · omega
                  · omega
                  · omega

end PE3

/-! ## Submission validator -/

namespace PE3

theorem keyTsOf_none_of_no_match (s : Session) (key : String)
    (hcur : key ≠ s.rotating_key) (hprev : s.prev_rotating_key ≠ some key) :
    keyTsOf s key = none := by
  unfold keyTsOf
  rw [if_neg hcur]
  cases hp : s.prev_rotating_key with
  | none => rfl
  | some prev =>
    have hne : key ≠ prev := by
      intro h
      apply hprev
      rw [hp, h]
    simp [hne]

theorem keyTsOf_current (s : Session) : keyTsOf s s.rotating_key = some s.rotating_updated_ts := by
  unfold keyTsOf
  simp

theorem keyTsOf_previous (s : Session) (key : String) (t : Int)
    (hcur : key ≠ s.rotating_key) (hne : key ≠ "")
    (hprev : s.prev_rotating_key = some key) (hts : s.prev_rotating_updated_ts = some t) :
    keyTsOf s key = some t := by
  unfold keyTsOf
  simp [hcur, hprev, hts, hne]

/-- The timestamp `keyTsOf` yields is the one of the generation matched, the
current generation first. -/
theorem keyTsOf_some_of_match (s : Session) (key : String) (t u : Int)
    (hm : (key = s.rotating_key ∧ t = s.rotating_updated_ts) ∨
          (key ≠ s.rotating_key ∧ s.prev_rotating_key = some key ∧
            s.prev_rotating_updated_ts = some t))
    (hu : keyTsOf s key = some u) : u = t := by
  rcases hm with ⟨hk, ht⟩ | ⟨hk, hp, hpt⟩
  · rw [hk, keyTsOf_current] at hu
    rw [ht]
    exact (Option.some.inj hu).symm
  · unfold keyTsOf at hu
    rw [if_neg hk] at hu
    simp only [hp, hpt] at hu
    split at hu
    · exact (Option.some.inj hu).symm
    · exact absurd hu (by simp)

/-- C1. Third generation never accepted: a well-formed submission whose
student and session resolve and whose secret is neither the stored current
secret nor the stored previous secret is answered `stale token` and leaves the
state (hence the attendance table) unchanged. In particular, after two rotation
ticks that install secrets different from the secret `s.rotating_key` that was
current before them, every submission carrying that old secret is rejected
without a state change, whatever `scanTs` and `now` are, and with `stale token`
as soon as its fields are present and its student exists. -/
theorem third_generation_never_accepted (env : Env) (srv : Server) :
    (∀ (studentId token : String) (scanTs now : Int) (newId : String) (d : Decoded)
        (stu : Student) (s : Session),
        studentId ≠ "" → token ≠ "" → scanTs ≠ 0 →
        decodeToken env token = some d →
        getStudent srv.db studentId = some stu →
        getSession srv.db d.sessionId = some s →
        d.key ≠ s.rotating_key → s.prev_rotating_key ≠ some d.key →
        postAttendance env srv studentId token scanTs now newId
          = (srv, Response.error Reject.staleToken))
    ∧
    (∀ (sessionId k1 k2 : String) (a1 a2 b1 b2 : Int) (s : Session)
        (studentId token : String) (scanTs now : Int) (newId : String),
        getSession srv.db sessionId = some s →
        a1 ≤ s.end_ts → b1 ≤ s.end_ts →
        k1 ≠ s.rotating_key → k2 ≠ s.rotating_key → k1 ≠ k2 →
        decodeToken env token = some ⟨sessionId, s.rotating_key⟩ →
        (∃ r, postAttendance env (rotate (rotate srv sessionId k1 a1 a2) sessionId k2 b1 b2)
                studentId token scanTs now newId
              = (rotate (rotate srv sessionId k1 a1 a2) sessionId k2 b1 b2, Response.error r))
        ∧
        (studentId ≠ "" → token ≠ "" → scanTs ≠ 0 →
          (∃ stu, getStudent srv.db studentId = some stu) →
          postAttendance env (rotate (rotate srv sessionId k1 a1 a2) sessionId k2 b1 b2)
              studentId token scanTs now newId
            = (rotate (rotate srv sessionId k1 a1 a2) sessionId k2 b1 b2,
               Response.error Reject.staleToken))) := by
  constructor
  · intro studentId token scanTs now newId d stu s hid htok hscan hdec hstu hses hcur hprev
    exact postAttendance_no_match env srv studentId token scanTs now newId d stu s hid htok hscan
      hdec hstu hses (keyTsOf_none_of_no_match s d.key hcur hprev)
  · intro sessionId k1 k2 a1 a2 b1 b2 s studentId token scanTs now newId hs ha hb hk1 hk2 _ hdec
    have h1 := rotate_getSession srv sessionId k1 a1 a2 s hs ha
    have h2 := rotate_getSession (rotate srv sessionId k1 a1 a2) sessionId k2 b1 b2 _ h1 hb
    simp only at h2
    have hstale : ∀ stu, studentId ≠ "" → token ≠ "" → scanTs ≠ 0 →
        getStudent srv.db studentId = some stu →
        postAttendance env (rotate (rotate srv sessionId k1 a1 a2) sessionId k2 b1 b2)
            studentId token scanTs now newId
          = (rotate (rotate srv sessionId k1 a1 a2) sessionId k2 b1 b2,
             Response.error Reject.staleToken) := by
      intro stu hid htok hscan hstu
      have hstu2 : getStudent (rotate (rotate srv sessionId k1 a1 a2) sessionId k2 b1 b2).db
          studentId = some stu := by
        unfold getStudent at hstu ⊢
        rw [rotate_students, rotate_students]
        exact hstu
      refine postAttendance_no_match env _ studentId token scanTs now newId _ stu _ hid htok
        hscan hdec hstu2 h2 ?_
      apply keyTsOf_none_of_no_match
      · exact fun h => hk2 h.symm
      · intro h
        exact hk1 (Option.some.inj h)
    constructor
    · by_cases hwf : studentId = "" ∨ token = "" ∨ scanTs = 0
      · refine ⟨Reject.missingFields, ?_⟩
        unfold postAttendance
        rw [if_pos hwf]
      · have hid : studentId ≠ "" := fun h => hwf (Or.inl h)
        have htok : token ≠ "" := fun h => hwf (Or.inr (Or.inl h))
        have hscan : scanTs ≠ 0 := fun h => hwf (Or.inr (Or.inr h))
        cases hstu : getStudent srv.db studentId with
        | none =>
          refine ⟨Reject.studentNotFound, ?_⟩
          have hstu2 : getStudent (rotate (rotate srv sessionId k1 a1 a2) sessionId k2 b1 b2).db
              studentId = none := by
            unfold getStudent at hstu ⊢
            rw [rotate_students, rotate_students]
            exact hstu
          unfold postAttendance
          simp [hid, htok, hscan, hdec, hstu2]
        | some stu => exact ⟨Reject.staleToken, hstale stu hid htok hscan hstu⟩
    · intro hid htok hscan hex
      obtain ⟨stu, hstu⟩ := hex
      exact hstale stu hid htok hscan hstu

/-- C1 at the example session: after the ticks installing `S1` and `S2`, a
submission carrying `S0` is answered `stale token`. -/
theorem third_generation_never_accepted_witness :
    postAttendance demoEnv srvC "stu" "tok0" 81000 81500 "row1"
      = (srvC, Response.error Reject.staleToken)
    ∧
    postAttendance demoEnv (rotate (rotate srvA "sess" "S1" 40000 40000) "sess" "S2" 80000 80000)
        "stu" "tok0" 1000 1500 "row1"
      = (rotate (rotate srvA "sess" "S1" 40000 40000) "sess" "S2" 80000 80000,
         Response.error Reject.staleToken) :=
  ⟨(third_generation_never_accepted demoEnv srvC).1 "stu" "tok0" 81000 81500 "row1"
      { sessionId := "sess", key := "S0" } { id := "stu", name := "Ann", class_id := "c1" }
      { newSession "sess" "c1" "S0" 0 0 with
        prev_rotating_key := some "S1"
        prev_rotating_updated_ts := some 40000
        rotating_key := "S2"
        rotating_updated_ts := 80000 }
      (by decide) (by decide) (by decide) (by decide) (by decide) (by decide) (by decide)
      (by decide),
   ((third_generation_never_accepted demoEnv srvA).2 "sess" "S1" "S2" 40000 40000 80000 80000
      (newSession "sess" "c1" "S0" 0 0) "stu" "tok0" 1000 1500 "row1"
      (by decide) (by decide) (by decide) (by decide) (by decide) (by decide) (by decide)).2
      (by decide) (by decide) (by decide)
      ⟨{ id := "stu", name := "Ann", class_id := "c1" }, by decide⟩⟩


/-- C2. Freshness bound: for a well-formed submission whose student and
session resolve and whose secret matches the current generation, or else the
previous one, `t` being the stored timestamp of the generation matched, the
answer is `stale token` with no state change whenever `scanTs - t > 40000` or
`now - t > 40000`. Consequently no submission at all, whatever its fields, is
answered `ok` or `duplicate` when `now - t > 40000`, and it changes nothing. -/
theorem freshness_bound (env : Env) (srv : Server) (studentId token : String) (scanTs now : Int)
    (newId : String) (d : Decoded) (s : Session) (t : Int)
    (hdec : decodeToken env token = some d)
    (hses : getSession srv.db d.sessionId = some s)
    (hm : (d.key = s.rotating_key ∧ t = s.rotating_updated_ts) ∨
          (d.key ≠ s.rotating_key ∧ s.prev_rotating_key = some d.key ∧
            s.prev_rotating_updated_ts = some t)) :
    (∀ stu : Student, studentId ≠ "" → token ≠ "" → scanTs ≠ 0 →
        getStudent srv.db studentId = some stu →
        scanTs - t > 40000 ∨ now - t > 40000 →
        postAttendance env srv studentId token scanTs now newId
          = (srv, Response.error Reject.staleToken))
    ∧
    (now - t > 40000 →
        (postAttendance env srv studentId token scanTs now newId).2 ≠ Response.ok ∧
        (postAttendance env srv studentId token scanTs now newId).2 ≠ Response.duplicate ∧
        (postAttendance env srv studentId token scanTs now newId).1 = srv) := by
  constructor
  · intro stu hid htok hscan hstu hlate
    cases hk : keyTsOf s d.key with
    | none =>
      exact postAttendance_no_match env srv studentId token scanTs now newId d stu s hid htok
        hscan hdec hstu hses hk
    | some u =>
      have hu : u = t := keyTsOf_some_of_match s d.key t u hm hk
      subst hu
      exact postAttendance_late env srv studentId token scanTs now newId d stu s u hid htok
        hscan hdec hstu hses hk hlate
  · intro hlate
    have hno : ¬ ((postAttendance env srv studentId token scanTs now newId).2 = Response.ok ∨
        (postAttendance env srv studentId token scanTs now newId).2 = Response.duplicate) := by
      intro h
      obtain ⟨d1, _, s1, t1, hd1, _, hs1, hk1, _, _, hn1, _, _⟩ :=
        postAttendance_accept_inv env srv studentId token scanTs now newId h
      rw [hdec] at hd1
      cases hd1
      rw [hses] at hs1
      cases hs1
      have := keyTsOf_some_of_match s d.key t t1 hm hk1
      omega
    refine ⟨fun h => hno (Or.inl h), fun h => hno (Or.inr h), ?_⟩
    rcases postAttendance_state env srv studentId token scanTs now newId with h | h
    · exact absurd (Or.inl h) hno
    · exact h

/-- C2 at Scenario B: after the tick at 40000 a submission carrying `S0`
(stamped 0) with `scanTs` 41000 is answered `stale token`. -/
theorem freshness_bound_witness :
    postAttendance demoEnv srvB "stu" "tok0" 41000 41500 "row1"
      = (srvB, Response.error Reject.staleToken) :=
  (freshness_bound demoEnv srvB "stu" "tok0" 41000 41500 "row1"
      { sessionId := "sess", key := "S0" }
      { newSession "sess" "c1" "S0" 0 0 with
        prev_rotating_key := some "S0"
        prev_rotating_updated_ts := some 0
        rotating_key := "S1"
        rotating_updated_ts := 40000 } 0
      (by decide) (by decide) (Or.inr (by decide))).1
    { id := "stu", name := "Ann", class_id := "c1" }
    (by decide) (by decide) (by decide) (by decide) (Or.inl (by decide))


theorem insertAttendance_fresh (db : Db) (row : AttendanceRow)
    (hid : ∀ a ∈ db.attendance, a.id ≠ row.id)
    (hpair : ∀ a ∈ db.attendance,
      ¬ (a.session_id = row.session_id ∧ a.student_id = row.student_id)) :
    insertAttendance db row = some { db with attendance := db.attendance ++ [row] } := by
  unfold insertAttendance
  have h1 : db.attendance.any (fun a => decide (a.id = row.id)) = false := by
    rw [List.any_eq_false]
    intro a ha
    simpa using hid a ha
  have h2 : db.attendance.any
      (fun a => decide (a.session_id = row.session_id ∧ a.student_id = row.student_id))
      = false := by
    rw [List.any_eq_false]
    intro a ha
    simpa using hpair a ha
  rw [h1, h2]
  rfl

theorem insertAttendance_taken (db : Db) (row : AttendanceRow) (a : AttendanceRow)
    (ha : a ∈ db.attendance)
    (hpair : a.session_id = row.session_id ∧ a.student_id = row.student_id) :
    insertAttendance db row = none := by
  unfold insertAttendance
  have h2 : db.attendance.any
      (fun a => decide (a.session_id = row.session_id ∧ a.student_id = row.student_id))
      = true := by
    rw [List.any_eq_true]
    exact ⟨a, ha, by simpa using hpair⟩
  rw [h2]
  split <;> rfl

/-- C3. Valid submissions are accepted: a well-formed submission of an
existing student with no attendance row yet for the session, whose token
decodes to a stored session and to its current secret (`t` the current
timestamp) or else to its non-empty previous secret (`t` the previous
timestamp), with `scanTs - t ≤ 40000`, `now - t ≤ 40000` and
`start_ts ≤ scanTs ≤ end_ts`, is answered `ok`, and the attendance table gains
exactly the row `(newId, sessionId, studentId, scanTs)`, `newId` being the
fresh identifier drawn for it; nothing else changes. -/
theorem valid_submission_accepted (env : Env) (srv : Server) (studentId token : String)
    (scanTs now : Int) (newId : String) (d : Decoded) (stu : Student) (s : Session) (t : Int)
    (hid : studentId ≠ "") (htok : token ≠ "") (hscan : scanTs ≠ 0)
    (hdec : decodeToken env token = some d)
    (hstu : getStudent srv.db studentId = some stu)
    (hses : getSession srv.db d.sessionId = some s)
    (hm : (d.key = s.rotating_key ∧ t = s.rotating_updated_ts) ∨
          (d.key ≠ s.rotating_key ∧ d.key ≠ "" ∧ s.prev_rotating_key = some d.key ∧
            s.prev_rotating_updated_ts = some t))
    (hfresh1 : scanTs - t ≤ 40000) (hfresh2 : now - t ≤ 40000)
    (hwin : s.start_ts ≤ scanTs ∧ scanTs ≤ s.end_ts)
    (hnofact : ∀ a ∈ srv.db.attendance,
      ¬ (a.session_id = d.sessionId ∧ a.student_id = studentId))
    (hnew : ∀ a ∈ srv.db.attendance, a.id ≠ newId) :
    postAttendance env srv studentId token scanTs now newId =
      ({ srv with
         db := { srv.db with
                 attendance := srv.db.attendance ++
                   [{ id := newId, session_id := d.sessionId, student_id := studentId,
                      scan_ts := scanTs }] } },
       Response.ok) := by
  have hk : keyTsOf s d.key = some t := by
    rcases hm with ⟨hk, ht⟩ | ⟨hk, hne, hp, hpt⟩
    · rw [hk, ht]
      exact keyTsOf_current s
    · exact keyTsOf_previous s d.key t hk hne hp hpt
  rw [postAttendance_match env srv studentId token scanTs now newId d stu s t hid htok hscan
    hdec hstu hses hk]
  rw [if_neg (by omega), if_neg (by omega), if_neg (by omega)]
  rw [insertAttendance_fresh srv.db _ hnew hnofact]

/-- C3 at Scenario A (secret `S0` stamped 0, `scanTs` 30000, `now` 35000) and
at Scenario C (after the tick at 40000: secret `S1`, `scanTs` 41000, `now`
41500). -/
theorem valid_submission_accepted_witness :
    postAttendance demoEnv srvA "stu" "tok0" 30000 35000 "row1" =
      ({ srvA with
         db := { srvA.db with
                 attendance := srvA.db.attendance ++
                   [{ id := "row1", session_id := "sess", student_id := "stu",
                      scan_ts := 30000 }] } },
       Response.ok)
    ∧
    postAttendance demoEnv srvB "stu" "tok1" 41000 41500 "row1" =
      ({ srvB with
         db := { srvB.db with
                 attendance := srvB.db.attendance ++
                   [{ id := "row1", session_id := "sess", student_id := "stu",
                      scan_ts := 41000 }] } },
       Response.ok) :=
  ⟨valid_submission_accepted demoEnv srvA "stu" "tok0" 30000 35000 "row1"
      { sessionId := "sess", key := "S0" } { id := "stu", name := "Ann", class_id := "c1" }
      (newSession "sess" "c1" "S0" 0 0) 0
      (by decide) (by decide) (by decide) (by decide) (by decide) (by decide)
      (Or.inl (by decide)) (by decide) (by decide) (by decide) (by decide) (by decide),
   valid_submission_accepted demoEnv srvB "stu" "tok1" 41000 41500 "row1"
      { sessionId := "sess", key := "S1" } { id := "stu", name := "Ann", class_id := "c1" }
      { newSession "sess" "c1" "S0" 0 0 with
        prev_rotating_key := some "S0"
        prev_rotating_updated_ts := some 0
        rotating_key := "S1"
        rotating_updated_ts := 40000 } 40000
      (by decide) (by decide) (by decide) (by decide) (by decide) (by decide)
      (Or.inl (by decide)) (by decide) (by decide) (by decide) (by decide) (by decide)⟩

end PE3

/-! ## Session window and duplicate suppression -/

namespace PE3

/-- C8. Session-window boundary: for a well-formed submission that passed the
student, session, secret (`keyTsOf` gave `t`) and freshness checks, the window
check is inclusive at both ends. With `start_ts ≤ scanTs ≤ end_ts`, in
particular at `scanTs = end_ts` and at `scanTs = start_ts` of a session with
`start_ts ≤ end_ts`, the submission is accepted: when the pair has no row yet
(and the drawn row id is unused) the answer is `ok` and the table gains exactly
the row `(newId, sessionId, studentId, scanTs)`; when the pair already has a
row the answer is `duplicate` and the state is unchanged. With
`scanTs < start_ts` or `scanTs > end_ts`, in particular at
`scanTs = end_ts + 1`, the answer is `outside session window` and the state is
unchanged. -/
theorem session_window_inclusive (env : Env) (srv : Server) (studentId token : String)
    (scanTs now : Int) (newId : String) (d : Decoded) (stu : Student) (s : Session) (t : Int)
    (hid : studentId ≠ "") (htok : token ≠ "") (hscan : scanTs ≠ 0)
    (hdec : decodeToken env token = some d)
    (hstu : getStudent srv.db studentId = some stu)
    (hses : getSession srv.db d.sessionId = some s)
    (hk : keyTsOf s d.key = some t)
    (hfresh1 : scanTs - t ≤ 40000) (hfresh2 : now - t ≤ 40000) :
    ((s.start_ts ≤ scanTs ∧ scanTs ≤ s.end_ts) →
        ((∀ a ∈ srv.db.attendance, ¬ (a.session_id = d.sessionId ∧ a.student_id = studentId)) →
          (∀ a ∈ srv.db.attendance, a.id ≠ newId) →
          postAttendance env srv studentId token scanTs now newId =
            ({ srv with
               db := { srv.db with
                       attendance := srv.db.attendance ++
                         [{ id := newId, session_id := d.sessionId, student_id := studentId,
                            scan_ts := scanTs }] } },
             Response.ok))
        ∧ ((∃ a ∈ srv.db.attendance, a.session_id = d.sessionId ∧ a.student_id = studentId) →
          postAttendance env srv studentId token scanTs now newId = (srv, Response.duplicate)))
    ∧ (s.start_ts ≤ s.end_ts → scanTs = s.end_ts →
        ((∀ a ∈ srv.db.attendance, ¬ (a.session_id = d.sessionId ∧ a.student_id = studentId)) →
          (∀ a ∈ srv.db.attendance, a.id ≠ newId) →
          postAttendance env srv studentId token scanTs now newId =
            ({ srv with
               db := { srv.db with
                       attendance := srv.db.attendance ++
                         [{ id := newId, session_id := d.sessionId, student_id := studentId,
                            scan_ts := s.end_ts }] } },
             Response.ok))
        ∧ ((∃ a ∈ srv.db.attendance, a.session_id = d.sessionId ∧ a.student_id = studentId) →
          postAttendance env srv studentId token scanTs now newId = (srv, Response.duplicate)))
    ∧ (s.start_ts ≤ s.end_ts → scanTs = s.start_ts →
        ((∀ a ∈ srv.db.attendance, ¬ (a.session_id = d.sessionId ∧ a.student_id = studentId)) →
          (∀ a ∈ srv.db.attendance, a.id ≠ newId) →
          postAttendance env srv studentId token scanTs now newId =
            ({ srv with
               db := { srv.db with
                       attendance := srv.db.attendance ++
                         [{ id := newId, session_id := d.sessionId, student_id := studentId,
                            scan_ts := s.start_ts }] } },
             Response.ok))
        ∧ ((∃ a ∈ srv.db.attendance, a.session_id = d.sessionId ∧ a.student_id = studentId) →
          postAttendance env srv studentId token scanTs now newId = (srv, Response.duplicate)))
    ∧ ((scanTs < s.start_ts ∨ scanTs > s.end_ts) →
        postAttendance env srv studentId token scanTs now newId
          = (srv, Response.error Reject.outsideWindow))
    ∧ (scanTs = s.end_ts + 1 →
        postAttendance env srv studentId token scanTs now newId
          = (srv, Response.error Reject.outsideWindow)) := by
  have hshape := postAttendance_match env srv studentId token scanTs now newId d stu s t hid
    htok hscan hdec hstu hses hk
  rw [if_neg (by omega), if_neg (by omega)] at hshape
  have hin : (s.start_ts ≤ scanTs ∧ scanTs ≤ s.end_ts) →
      ((∀ a ∈ srv.db.attendance, ¬ (a.session_id = d.sessionId ∧ a.student_id = studentId)) →
        (∀ a ∈ srv.db.attendance, a.id ≠ newId) →
        postAttendance env srv studentId token scanTs now newId =
          ({ srv with
             db := { srv.db with
                     attendance := srv.db.attendance ++
                       [{ id := newId, session_id := d.sessionId, student_id := studentId,
                          scan_ts := scanTs }] } },
           Response.ok))
      ∧ ((∃ a ∈ srv.db.attendance, a.session_id = d.sessionId ∧ a.student_id = studentId) →
        postAttendance env srv studentId token scanTs now newId
          = (srv, Response.duplicate)) := by
    intro hw
    rw [if_neg (by omega)] at hshape
    constructor
    · intro hnofact hnew
      rw [hshape, insertAttendance_fresh srv.db _ hnew hnofact]
    · intro hex
      obtain ⟨a, ha, hpair⟩ := hex
      rw [hshape, insertAttendance_taken srv.db _ a ha hpair]
  have hout : (scanTs < s.start_ts ∨ scanTs > s.end_ts) →
      postAttendance env srv studentId token scanTs now newId
        = (srv, Response.error Reject.outsideWindow) := by
    intro hw
    rw [if_pos hw] at hshape
    exact hshape
  refine ⟨hin, ?_, ?_, hout, ?_⟩
  · intro hle he
    subst he
    exact hin ⟨hle, le_refl _⟩
  · intro hle he
    subst he
    exact hin ⟨le_refl _, hle⟩
  · intro he
    exact hout (Or.inr (by omega))

/-- C8 at the example session (window 0 to 5400000) after key-sync moved the
current secret `S1` to 5390000: `scanTs = end_ts` is answered `ok` and the row
is stored, the same submission repeated is answered `duplicate` with the table
unchanged, and `scanTs = end_ts + 1` is answered `outside session window`. -/
theorem session_window_inclusive_witness :
    postAttendance demoEnv
        (postSessionsKeySync srvA "sess" "S1" 5390000).1 "stu" "tok1" 5400000 5400100 "row1"
      = ({ (postSessionsKeySync srvA "sess" "S1" 5390000).1 with
           db := { (postSessionsKeySync srvA "sess" "S1" 5390000).1.db with
                   attendance :=
                     [{ id := "row1", session_id := "sess", student_id := "stu",
                        scan_ts := 5400000 }] } },
         Response.ok)
    ∧
    postAttendance demoEnv
        (postAttendance demoEnv
          (postSessionsKeySync srvA "sess" "S1" 5390000).1 "stu" "tok1" 5400000 5400100 "row1").1
        "stu" "tok1" 5400000 5400200 "row2"
      = ((postAttendance demoEnv
          (postSessionsKeySync srvA "sess" "S1" 5390000).1 "stu" "tok1" 5400000 5400100 "row1").1,
         Response.duplicate)
    ∧
    postAttendance demoEnv
        (postSessionsKeySync srvA "sess" "S1" 5390000).1 "stu" "tok1" 5400001 5400100 "row1"
      = ((postSessionsKeySync srvA "sess" "S1" 5390000).1,
         Response.error Reject.outsideWindow) :=
  ⟨((session_window_inclusive demoEnv (postSessionsKeySync srvA "sess" "S1" 5390000).1
      "stu" "tok1" 5400000 5400100 "row1"
      { sessionId := "sess", key := "S1" } { id := "stu", name := "Ann", class_id := "c1" }
      { newSession "sess" "c1" "S0" 0 0 with
        prev_rotating_key := some "S0"
        prev_rotating_updated_ts := some 0
        rotating_key := "S1"
        rotating_updated_ts := 5390000 } 5390000
      (by decide) (by decide) (by decide) (by decide) (by decide) (by decide) (by decide)
      (by decide) (by decide)).2.1 (by decide) (by decide)).1 (by decide) (by decide),
   ((session_window_inclusive demoEnv
      (postAttendance demoEnv
        (postSessionsKeySync srvA "sess" "S1" 5390000).1 "stu" "tok1" 5400000 5400100 "row1").1
      "stu" "tok1" 5400000 5400200 "row2"
      { sessionId := "sess", key := "S1" } { id := "stu", name := "Ann", class_id := "c1" }
      { newSession "sess" "c1" "S0" 0 0 with
        prev_rotating_key := some "S0"
        prev_rotating_updated_ts := some 0
        rotating_key := "S1"
        rotating_updated_ts := 5390000 } 5390000
      (by decide) (by decide) (by decide) (by decide) (by decide) (by decide) (by decide)
      (by decide) (by decide)).2.1 (by decide) (by decide)).2
      ⟨{ id := "row1", session_id := "sess", student_id := "stu", scan_ts := 5400000 },
       by decide, by decide⟩,
   (session_window_inclusive demoEnv (postSessionsKeySync srvA "sess" "S1" 5390000).1
      "stu" "tok1" 5400001 5400100 "row1"
      { sessionId := "sess", key := "S1" } { id := "stu", name := "Ann", class_id := "c1" }
      { newSession "sess" "c1" "S0" 0 0 with
        prev_rotating_key := some "S0"
        prev_rotating_updated_ts := some 0
        rotating_key := "S1"
        rotating_updated_ts := 5390000 } 5390000
      (by decide) (by decide) (by decide) (by decide) (by decide) (by decide) (by decide)
      (by decide) (by decide)).2.2.2.2 (by decide)⟩

theorem factCount_append (srv : Server) (row : AttendanceRow) (sessionId studentId : String) :
    factCount
        { srv with db := { srv.db with attendance := srv.db.attendance ++ [row] } }
        sessionId studentId
      = factCount srv sessionId studentId +
          (if row.session_id = sessionId ∧ row.student_id = studentId then 1 else 0) := by
  unfold factCount
  simp only [List.filter_append, List.length_append]
  by_cases h : row.session_id = sessionId ∧ row.student_id = studentId
  · simp [List.filter, h]
  · simp [List.filter, h]

theorem factCount_eq_zero (srv : Server) (sessionId studentId : String)
    (h : srv.db.attendance.any
      (fun a => decide (a.session_id = sessionId ∧ a.student_id = studentId)) = false) :
    factCount srv sessionId studentId = 0 := by
  unfold factCount
  rw [List.any_eq_false] at h
  rw [List.length_eq_zero, List.filter_eq_nil_iff]
  exact h

theorem factCount_pos (srv : Server) (sessionId studentId : String)
    (h : 1 ≤ factCount srv sessionId studentId) :
    ∃ a ∈ srv.db.attendance, a.session_id = sessionId ∧ a.student_id = studentId := by
  unfold factCount at h
  have hne : srv.db.attendance.filter
      (fun a => decide (a.session_id = sessionId ∧ a.student_id = studentId)) ≠ [] := by
    intro h0
    rw [h0] at h
    simp at h
  obtain ⟨a, ha⟩ := List.exists_mem_of_ne_nil _ hne
  rw [List.mem_filter] at ha
  exact ⟨a, ha.1, by simpa using ha.2⟩

/-- The submission handler either leaves the state alone or appends the one
row the insert statement accepted. -/
theorem postAttendance_cases (env : Env) (srv : Server) (studentId token : String)
    (scanTs now : Int) (newId : String) :
    (postAttendance env srv studentId token scanTs now newId).1 = srv ∨
    ∃ (d : Decoded) (db1 : Db),
      insertAttendance srv.db
        { id := newId, session_id := d.sessionId, student_id := studentId, scan_ts := scanTs }
        = some db1 ∧
      (postAttendance env srv studentId token scanTs now newId).1 = { srv with db := db1 } := by
  unfold postAttendance
  repeat' split
  all_goals first
    | exact Or.inl rfl
    | exact Or.inr ⟨_, _, by assumption, rfl⟩

/-- The submission handler keeps the table free of repeated pairs. -/
theorem postAttendance_factCount (env : Env) (srv : Server) (studentId token : String)
    (scanTs now : Int) (newId : String)
    (hinv : ∀ sid stu, factCount srv sid stu ≤ 1) :
    ∀ sid stu,
      factCount (postAttendance env srv studentId token scanTs now newId).1 sid stu ≤ 1 := by
  intro sid stu
  rcases postAttendance_cases env srv studentId token scanTs now newId with h | ⟨d, db1, hins, h⟩
  · rw [h]
    exact hinv sid stu
  · rw [h]
    unfold insertAttendance at hins
    split at hins
    · exact absurd hins (by simp)
    · split at hins
      · exact absurd hins (by simp)
      · rename_i hpair
        have hdb : db1 = { srv.db with attendance := srv.db.attendance ++
            [{ id := newId, session_id := d.sessionId, student_id := studentId,
               scan_ts := scanTs }] } := (Option.some.inj hins).symm
        rw [hdb, factCount_append]
        by_cases hrow : d.sessionId = sid ∧ studentId = stu
        · have h0 : factCount srv sid stu = 0 := by
            apply factCount_eq_zero
            rw [← hrow.1, ← hrow.2]
            simpa using hpair
          simp [hrow, h0]
        · have := hinv sid stu
          simp [hrow, this]

theorem step_factCount (env : Env) (srv : Server) (op : Op)
    (hinv : ∀ sid stu, factCount srv sid stu ≤ 1) :
    ∀ sid stu, factCount (step env srv op) sid stu ≤ 1 := by
  cases op with
  | submit studentId token scanTs now newId =>
    exact postAttendance_factCount env srv studentId token scanTs now newId hinv
  | tick sessionId newKey now1 now2 =>
    intro sid stu
    have h : (step env srv (Op.tick sessionId newKey now1 now2)).db.attendance
        = srv.db.attendance := rotate_attendance srv sessionId newKey now1 now2
    unfold factCount
    rw [h]
    exact hinv sid stu
  | sync sessionId currentKey ts =>
    intro sid stu
    have h : (step env srv (Op.sync sessionId currentKey ts)).db.attendance
        = srv.db.attendance := by
      simp only [step]
      unfold postSessionsKeySync
      repeat' split
      all_goals rfl
    unfold factCount
    rw [h]
    exact hinv sid stu
  | issue sessionId now1 now2 =>
    intro sid stu
    have h : (step env srv (Op.issue sessionId now1 now2)).db.attendance
        = srv.db.attendance := by
      simp only [step]
      unfold postSessionsQr
      repeat' split
      all_goals rfl
    unfold factCount
    rw [h]
    exact hinv sid stu
  | arm sessionId endTs intervalId =>
    intro sid stu
    have h : (step env srv (Op.arm sessionId endTs intervalId)).db.attendance
        = srv.db.attendance := by
      simp only [step]
      unfold startSessionRotation
      split <;> rfl
    unfold factCount
    rw [h]
    exact hinv sid stu

theorem run_factCount (env : Env) (ops : List Op) :
    ∀ srv : Server, (∀ sid stu, factCount srv sid stu ≤ 1) →
      ∀ sid stu, factCount (run env srv ops) sid stu ≤ 1 := by
  induction ops with
  | nil =>
    intro srv hinv
    exact hinv
  | cons op ops ih =>
    intro srv hinv
    exact ih (step env srv op) (step_factCount env srv op hinv)

/-- C4. Exactly-once attendance: from a state with an empty attendance table,
after any finite sequence of submissions, rotation ticks, key-syncs, code
issuances and armings the table holds at most one row for each
`(sessionId, studentId)` pair; and a well-formed submission that passes every
check of the validator for a pair that already has a row is answered
`duplicate` and leaves the state unchanged. -/
theorem exactly_once_attendance (env : Env) (srv0 : Server) (h0 : srv0.db.attendance = []) :
    (∀ (ops : List Op) (sessionId studentId : String),
        factCount (run env srv0 ops) sessionId studentId ≤ 1)
    ∧
    (∀ (srv : Server) (studentId token : String) (scanTs now : Int) (newId : String)
        (d : Decoded) (stu : Student) (s : Session) (t : Int),
        studentId ≠ "" → token ≠ "" → scanTs ≠ 0 →
        decodeToken env token = some d →
        getStudent srv.db studentId = some stu →
        getSession srv.db d.sessionId = some s →
        keyTsOf s d.key = some t →
        scanTs - t ≤ 40000 → now - t ≤ 40000 →
        s.start_ts ≤ scanTs → scanTs ≤ s.end_ts →
        1 ≤ factCount srv d.sessionId studentId →
        postAttendance env srv studentId token scanTs now newId = (srv, Response.duplicate)) := by
  constructor
  · intro ops sessionId studentId
    apply run_factCount env ops srv0
    intro sid stu
    unfold factCount
    rw [h0]
    exact Nat.zero_le 1
  · intro srv studentId token scanTs now newId d stu s t hid htok hscan hdec hstu hses hk hf1 hf2
      hw1 hw2 hfact
    rw [postAttendance_match env srv studentId token scanTs now newId d stu s t hid htok hscan
      hdec hstu hses hk]
    rw [if_neg (by omega), if_neg (by omega), if_neg (by omega)]
    obtain ⟨a, ha, hpair⟩ := factCount_pos srv d.sessionId studentId hfact
    rw [insertAttendance_taken srv.db _ a ha hpair]

/-- C4 at Scenario C: twice the same valid submission, then a tick, a key-sync
and a third submission, leave at most one row; the repeated submission is
answered `duplicate`. -/
theorem exactly_once_attendance_witness :
    factCount
        (run demoEnv srvB
          [Op.submit "stu" "tok1" 41000 41500 "row1",
           Op.submit "stu" "tok1" 41000 41600 "row2",
           Op.tick "sess" "S2" 80000 80000,
           Op.sync "sess" "S1" 90000,
           Op.submit "stu" "tok1" 91000 91500 "row3"]) "sess" "stu" ≤ 1
    ∧
    postAttendance demoEnv (postAttendance demoEnv srvB "stu" "tok1" 41000 41500 "row1").1
        "stu" "tok1" 41000 41600 "row2"
      = ((postAttendance demoEnv srvB "stu" "tok1" 41000 41500 "row1").1, Response.duplicate) :=
  ⟨(exactly_once_attendance demoEnv srvB (by decide)).1
      [Op.submit "stu" "tok1" 41000 41500 "row1",
       Op.submit "stu" "tok1" 41000 41600 "row2",
       Op.tick "sess" "S2" 80000 80000,
       Op.sync "sess" "S1" 90000,
       Op.submit "stu" "tok1" 91000 91500 "row3"] "sess" "stu",
   (exactly_once_attendance demoEnv srvB (by decide)).2
      (postAttendance demoEnv srvB "stu" "tok1" 41000 41500 "row1").1
      "stu" "tok1" 41000 41600 "row2"
      { sessionId := "sess", key := "S1" } { id := "stu", name := "Ann", class_id := "c1" }
      { newSession "sess" "c1" "S0" 0 0 with
        prev_rotating_key := some "S0"
        prev_rotating_updated_ts := some 0
        rotating_key := "S1"
        rotating_updated_ts := 40000 } 40000
      (by decide) (by decide) (by decide) (by decide) (by decide) (by decide) (by decide)
      (by decide) (by decide) (by decide) (by decide) (by decide)⟩

end PE3

/-! ## Rotation, key-sync and issuance -/

namespace PE3

theorem rotatorsHas_delete (m : List (String × Nat)) (sessionId : String) :
    rotatorsHas (rotatorsDelete m sessionId) sessionId = false := by
  unfold rotatorsHas rotatorsDelete
  rw [List.any_eq_false]
  intro e he
  rw [List.mem_filter] at he
  simpa using he.2

theorem rotate_stops (srv : Server) (sessionId newKey : String) (now1 now2 : Int)
    (h : getSession srv.db sessionId = none ∨
         ∃ s, getSession srv.db sessionId = some s ∧ now1 > s.end_ts) :
    rotate srv sessionId newKey now1 now2 =
      { srv with sessionRotators := rotatorsDelete srv.sessionRotators sessionId } := by
  unfold rotate
  rcases h with h | ⟨s, hs, hend⟩
  · simp [h]
  · simp [hs, hend]

/-- C6. Rotation tick: for a stored session `s`, when `now1`, the clock read
of the end-of-session test, is at most `end_ts`, the tick leaves under the same id a session whose
previous secret and previous timestamp are the old current secret and old
current timestamp, whose current secret is `newKey` and whose current
timestamp is `now2`, the clock read of the update (the tick time), with `id`,
`class_id`, `start_ts` and `end_ts` unchanged, and the registry is untouched.
When the session is absent or `now1 > end_ts` the tick leaves the whole
database unchanged and removes the session id from the registry. -/
theorem rotation_tick (srv : Server) (sessionId newKey : String) (now1 now2 : Int) :
    (∀ s : Session, getSession srv.db sessionId = some s → now1 ≤ s.end_ts →
        getSession (rotate srv sessionId newKey now1 now2).db sessionId
          = some { id := s.id
                   class_id := s.class_id
                   start_ts := s.start_ts
                   end_ts := s.end_ts
                   rotating_key := newKey
                   rotating_updated_ts := now2
                   prev_rotating_key := some s.rotating_key
                   prev_rotating_updated_ts := some s.rotating_updated_ts }
        ∧ (rotate srv sessionId newKey now1 now2).sessionRotators = srv.sessionRotators)
    ∧
    ((getSession srv.db sessionId = none ∨
        ∃ s, getSession srv.db sessionId = some s ∧ now1 > s.end_ts) →
        (rotate srv sessionId newKey now1 now2).db = srv.db
        ∧ (rotate srv sessionId newKey now1 now2).sessionRotators
            = rotatorsDelete srv.sessionRotators sessionId
        ∧ rotatorsHas (rotate srv sessionId newKey now1 now2).sessionRotators sessionId
            = false) := by
  constructor
  · intro s hs hnow
    constructor
    · exact rotate_getSession srv sessionId newKey now1 now2 s hs hnow
    · rw [rotate_installs srv sessionId newKey now1 now2 s hs hnow]
  · intro h
    rw [rotate_stops srv sessionId newKey now1 now2 h]
    exact ⟨rfl, rfl, rotatorsHas_delete _ _⟩

/-- C6 at the example session: the tick at 40000 shifts `S0` stamped 0 into
the previous slot and installs `S1` stamped 40000; a tick one millisecond
after the end (Scenario D) changes no row and disarms. -/
theorem rotation_tick_witness :
    (getSession (rotate srvA "sess" "S1" 40000 40000).db "sess"
        = some { id := "sess"
                 class_id := "c1"
                 start_ts := 0
                 end_ts := 5400000
                 rotating_key := "S1"
                 rotating_updated_ts := 40000
                 prev_rotating_key := some "S0"
                 prev_rotating_updated_ts := some 0 }
      ∧ (rotate srvA "sess" "S1" 40000 40000).sessionRotators = [("sess", 1)])
    ∧
    ((rotate srvA "sess" "S1" 5400001 5400001).db = srvA.db
      ∧ (rotate srvA "sess" "S1" 5400001 5400001).sessionRotators
          = rotatorsDelete [("sess", 1)] "sess"
      ∧ rotatorsHas (rotate srvA "sess" "S1" 5400001 5400001).sessionRotators "sess" = false) :=
  ⟨(rotation_tick srvA "sess" "S1" 40000 40000).1 (newSession "sess" "c1" "S0" 0 0)
      (by decide) (by decide),
   (rotation_tick srvA "sess" "S1" 5400001 5400001).2
      (Or.inr ⟨newSession "sess" "c1" "S0" 0 0, by decide, by decide⟩)⟩

/-- C7, counterexample. In the state after the tick at 40000 (current secret
`S1` stamped 40000) a well-formed key-sync with the older time 30000 and the
other secret `S2` is not a no-op: it answers `ok`, moves `S1` to the previous
slot and installs `S2` stamped 30000; only the second identical call is a
no-op. -/
theorem keySync_older_time_not_noop :
    getSession srvB.db "sess"
      = some { id := "sess"
               class_id := "c1"
               start_ts := 0
               end_ts := 5400000
               rotating_key := "S1"
               rotating_updated_ts := 40000
               prev_rotating_key := some "S0"
               prev_rotating_updated_ts := some 0 }
    ∧ (30000 : Int) ≤ 40000
    ∧ (postSessionsKeySync srvB "sess" "S2" 30000).2 = Response.ok
    ∧ (postSessionsKeySync srvB "sess" "S2" 30000).2 ≠ Response.noop
    ∧ getSession (postSessionsKeySync srvB "sess" "S2" 30000).1.db "sess"
        = some { id := "sess"
                 class_id := "c1"
                 start_ts := 0
                 end_ts := 5400000
                 rotating_key := "S2"
                 rotating_updated_ts := 30000
                 prev_rotating_key := some "S1"
                 prev_rotating_updated_ts := some 40000 }
    ∧ (postSessionsKeySync (postSessionsKeySync srvB "sess" "S2" 30000).1 "sess" "S2" 30000).2
        = Response.noop := by
  decide

/-- C7, amended. For a stored session and a well-formed key-sync call whose
time is not newer than the stored current-secret time: when the observed
secret equals the stored current secret the call answers `noop` and leaves the
whole state unchanged, and so does the same call repeated; when the observed
secret differs the call answers `ok`, moves the current secret and timestamp to
the previous slot and installs the observed pair. -/
theorem keySync_noop_rule (srv : Server) (sessionId currentKey : String) (ts : Int) (s : Session)
    (hid : sessionId ≠ "") (hkey : currentKey ≠ "") (hts0 : ts ≠ 0)
    (hs : getSession srv.db sessionId = some s)
    (hts : ts ≤ s.rotating_updated_ts) :
    (currentKey = s.rotating_key →
        postSessionsKeySync srv sessionId currentKey ts = (srv, Response.noop)
        ∧ postSessionsKeySync (postSessionsKeySync srv sessionId currentKey ts).1
            sessionId currentKey ts = (srv, Response.noop))
    ∧
    (currentKey ≠ s.rotating_key →
        postSessionsKeySync srv sessionId currentKey ts
          = ({ srv with
               db := updateSessionKeys srv.db s.rotating_key s.rotating_updated_ts
                       currentKey ts sessionId },
             Response.ok)
        ∧ getSession (postSessionsKeySync srv sessionId currentKey ts).1.db sessionId
            = some { id := s.id
                     class_id := s.class_id
                     start_ts := s.start_ts
                     end_ts := s.end_ts
                     rotating_key := currentKey
                     rotating_updated_ts := ts
                     prev_rotating_key := some s.rotating_key
                     prev_rotating_updated_ts := some s.rotating_updated_ts }) := by
  constructor
  · intro heq
    have h1 : postSessionsKeySync srv sessionId currentKey ts = (srv, Response.noop) := by
      unfold postSessionsKeySync
      rw [if_neg (by simp [hid, hkey, hts0])]
      simp only [hs]
      rw [if_pos ⟨hts, heq⟩]
    rw [h1]
    exact ⟨rfl, h1⟩
  · intro hne
    have h1 : postSessionsKeySync srv sessionId currentKey ts
        = ({ srv with
             db := updateSessionKeys srv.db s.rotating_key s.rotating_updated_ts
                     currentKey ts sessionId },
           Response.ok) := by
      unfold postSessionsKeySync
      simp [hid, hkey, hts0, hs, hne]
    rw [h1]
    refine ⟨rfl, ?_⟩
    simp [getSession_updateSessionKeys, hs]

/-- C7 amended, at the state after the tick at 40000: key-sync of the current
secret `S1` with the older time 30000 is a no-op, twice; key-sync of the other
secret `S2` with that time answers `ok`. -/
theorem keySync_noop_rule_witness :
    (postSessionsKeySync srvB "sess" "S1" 30000 = (srvB, Response.noop)
      ∧ postSessionsKeySync (postSessionsKeySync srvB "sess" "S1" 30000).1 "sess" "S1" 30000
          = (srvB, Response.noop))
    ∧
    (postSessionsKeySync srvB "sess" "S2" 30000).2 = Response.ok :=
  ⟨(keySync_noop_rule srvB "sess" "S1" 30000
      { newSession "sess" "c1" "S0" 0 0 with
        prev_rotating_key := some "S0"
        prev_rotating_updated_ts := some 0
        rotating_key := "S1"
        rotating_updated_ts := 40000 }
      (by decide) (by decide) (by decide) (by decide) (by decide)).1 (by decide),
   congrArg Prod.snd
    ((keySync_noop_rule srvB "sess" "S2" 30000
      { newSession "sess" "c1" "S0" 0 0 with
        prev_rotating_key := some "S0"
        prev_rotating_updated_ts := some 0
        rotating_key := "S1"
        rotating_updated_ts := 40000 }
      (by decide) (by decide) (by decide) (by decide) (by decide)).2 (by decide)).1⟩

end PE3

/-! ## Ended sessions, the previous generation, the scan-time window -/

namespace PE3

/-- C10, the code at the failing input. The example session ends at 5400000.
At the server time 6000000 code issuance answers `session ended` and a rotation
tick changes no row, but a well-formed key-sync carrying the time 6000000 is
not refused: it answers `ok` and replaces the current secret `S0` by `S1`
(the handler reads no clock, so this is its answer at every server time after
the end). A submission carrying `S1` that claims `scanTs = 5400000` is then
answered `ok` and recorded at the server time 6001000. -/
theorem keySync_after_end_not_refused :
    getSession srvA.db "sess"
      = some { id := "sess"
               class_id := "c1"
               start_ts := 0
               end_ts := 5400000
               rotating_key := "S0"
               rotating_updated_ts := 0
               prev_rotating_key := none
               prev_rotating_updated_ts := none }
    ∧ postSessionsQr srvA "sess" 6000000 6000000
        = (srvA, Response.error Reject.sessionEnded)
    ∧ (rotate srvA "sess" "S1" 6000000 6000000).db = srvA.db
    ∧ (postSessionsKeySync srvA "sess" "S1" 6000000).2 = Response.ok
    ∧ (postSessionsKeySync srvA "sess" "S1" 6000000).2 ≠ Response.error Reject.sessionEnded
    ∧ getSession (postSessionsKeySync srvA "sess" "S1" 6000000).1.db "sess"
        = some { id := "sess"
                 class_id := "c1"
                 start_ts := 0
                 end_ts := 5400000
                 rotating_key := "S1"
                 rotating_updated_ts := 6000000
                 prev_rotating_key := some "S0"
                 prev_rotating_updated_ts := some 0 }
    ∧ (postAttendance demoEnv (postSessionsKeySync srvA "sess" "S1" 6000000).1
        "stu" "tok1" 5400000 6001000 "row1").2 = Response.ok
    ∧ (postAttendance demoEnv (postSessionsKeySync srvA "sess" "S1" 6000000).1
        "stu" "tok1" 5400000 6001000 "row1").1.db.attendance
        = [{ id := "row1", session_id := "sess", student_id := "stu",
             scan_ts := 5400000 }] := by
  decide

/-- C5, counterexample. Secret `S0` became current at 0 and the tick at 40000
superseded it; a submission carrying `S0` with `scanTs = 50000` and
`now = 60000`, both in (40000, 80000] and inside the session window, is
answered `stale token`. -/
theorem superseded_secret_rejected_in_grace :
    srvB = rotate srvA "sess" "S1" 40000 40000
    ∧ ((40000 : Int) < 50000 ∧ (50000 : Int) ≤ 40000 + 40000)
    ∧ ((40000 : Int) < 60000 ∧ (60000 : Int) ≤ 40000 + 40000)
    ∧ ((0 : Int) ≤ 50000 ∧ (50000 : Int) ≤ 5400000)
    ∧ postAttendance demoEnv srvB "stu" "tok0" 50000 60000 "row1"
        = (srvB, Response.error Reject.staleToken) := by
  decide

/-- C5, amended. Let secret `S = s.rotating_key` have become current at
`t0 = s.rotating_updated_ts` and let a rotation tick on the still active
session install a different secret. A well-formed submission of an existing
student carrying `S` is then answered `stale token`, with no state change, as
soon as `scanTs > t0 + 40000` or `now > t0 + 40000`; it is answered `ok` or
`duplicate` when `S` is non-empty, `scanTs ≤ t0 + 40000`, `now ≤ t0 + 40000` and
`scanTs` is inside the session window. So for a tick at `t1 = t0 + 40000` the
superseded secret is acceptable up to `t1` and not in (t1, t1 + 40000]. -/
theorem superseded_secret_window (env : Env) (srv : Server) (sessionId newKey : String)
    (now1 now2 : Int) (s : Session) (studentId token : String) (scanTs now : Int)
    (newId : String) (stu : Student)
    (hs : getSession srv.db sessionId = some s) (hact : now1 ≤ s.end_ts)
    (hnew : newKey ≠ s.rotating_key)
    (hid : studentId ≠ "") (htok : token ≠ "") (hscan : scanTs ≠ 0)
    (hdec : decodeToken env token = some ⟨sessionId, s.rotating_key⟩)
    (hstu : getStudent srv.db studentId = some stu) :
    ((scanTs > s.rotating_updated_ts + 40000 ∨ now > s.rotating_updated_ts + 40000) →
        postAttendance env (rotate srv sessionId newKey now1 now2) studentId token scanTs now newId
          = (rotate srv sessionId newKey now1 now2, Response.error Reject.staleToken))
    ∧
    (s.rotating_key ≠ "" →
      scanTs ≤ s.rotating_updated_ts + 40000 → now ≤ s.rotating_updated_ts + 40000 →
      s.start_ts ≤ scanTs → scanTs ≤ s.end_ts →
        (postAttendance env (rotate srv sessionId newKey now1 now2)
            studentId token scanTs now newId).2 = Response.ok ∨
        (postAttendance env (rotate srv sessionId newKey now1 now2)
            studentId token scanTs now newId).2 = Response.duplicate) := by
  have hses := rotate_getSession srv sessionId newKey now1 now2 s hs hact
  have hstu2 : getStudent (rotate srv sessionId newKey now1 now2).db studentId = some stu := by
    unfold getStudent at hstu ⊢
    rw [rotate_students]
    exact hstu
  constructor
  · intro hlate
    cases hk : keyTsOf
        { s with
          prev_rotating_key := some s.rotating_key
          prev_rotating_updated_ts := some s.rotating_updated_ts
          rotating_key := newKey
          rotating_updated_ts := now2 } s.rotating_key with
    | none =>
      exact postAttendance_no_match env _ studentId token scanTs now newId _ stu _ hid htok
        hscan hdec hstu2 hses hk
    | some u =>
      have hu : u = s.rotating_updated_ts :=
        keyTsOf_some_of_match _ _ _ u (Or.inr ⟨fun h => hnew h.symm, rfl, rfl⟩) hk
      refine postAttendance_late env _ studentId token scanTs now newId _ stu _ u hid htok
        hscan hdec hstu2 hses hk ?_
      rcases hlate with h | h
      · exact Or.inl (by omega)
      · exact Or.inr (by omega)
  · intro hne h1 h2 h3 h4
    have hk : keyTsOf
        { s with
          prev_rotating_key := some s.rotating_key
          prev_rotating_updated_ts := some s.rotating_updated_ts
          rotating_key := newKey
          rotating_updated_ts := now2 } s.rotating_key = some s.rotating_updated_ts :=
      keyTsOf_previous _ _ _ (fun h => hnew h.symm) hne rfl rfl
    rw [postAttendance_match env _ studentId token scanTs now newId _ stu _
      s.rotating_updated_ts hid htok hscan hdec hstu2 hses hk]
    dsimp only
    rw [if_neg (by omega), if_neg (by omega), if_neg (by omega)]
    split
    · exact Or.inl rfl
    · exact Or.inr rfl

end PE3

namespace PE3

/-- C5 amended, at the example session with the tick at 40000: the superseded
`S0` is answered `stale token` at `scanTs = 50000`, `now = 60000`, and is still
accepted at `scanTs = 39000`, `now = 40000`. -/
theorem superseded_secret_window_witness :
    postAttendance demoEnv (rotate srvA "sess" "S1" 40000 40000) "stu" "tok0" 50000 60000 "row1"
      = (rotate srvA "sess" "S1" 40000 40000, Response.error Reject.staleToken)
    ∧
    ((postAttendance demoEnv (rotate srvA "sess" "S1" 40000 40000)
        "stu" "tok0" 39000 40000 "row1").2 = Response.ok ∨
     (postAttendance demoEnv (rotate srvA "sess" "S1" 40000 40000)
        "stu" "tok0" 39000 40000 "row1").2 = Response.duplicate) :=
  ⟨(superseded_secret_window demoEnv srvA "sess" "S1" 40000 40000
      (newSession "sess" "c1" "S0" 0 0) "stu" "tok0" 50000 60000 "row1"
      { id := "stu", name := "Ann", class_id := "c1" }
      (by decide) (by decide) (by decide) (by decide) (by decide) (by decide) (by decide)
      (by decide)).1 (Or.inl (by decide)),
   (superseded_secret_window demoEnv srvA "sess" "S1" 40000 40000
      (newSession "sess" "c1" "S0" 0 0) "stu" "tok0" 39000 40000 "row1"
      { id := "stu", name := "Ann", class_id := "c1" }
      (by decide) (by decide) (by decide) (by decide) (by decide) (by decide) (by decide)
      (by decide)).2 (by decide) (by decide) (by decide) (by decide) (by decide)⟩

/-- C9, the code at the failing input. After the rotation ticks at 40000 and
80000 the current secret `S2` carries the timestamp 80000; a submission carrying
`S2` that claims `scanTs = 1000`, reported at `now = 81000`, is answered `ok`
and recorded although the scan time lies 79000 ms before the moment the matched
secret became current. -/
theorem scan_before_key_accepted :
    getSession srvC.db "sess"
        = some { id := "sess"
                 class_id := "c1"
                 start_ts := 0
                 end_ts := 5400000
                 rotating_key := "S2"
                 rotating_updated_ts := 80000
                 prev_rotating_key := some "S1"
                 prev_rotating_updated_ts := some 40000 }
    ∧ decodeToken demoEnv "tok2" = some { sessionId := "sess", key := "S2" }
    ∧ keyTsOf
        { id := "sess"
          class_id := "c1"
          start_ts := 0
          end_ts := 5400000
          rotating_key := "S2"
          rotating_updated_ts := 80000
          prev_rotating_key := some "S1"
          prev_rotating_updated_ts := some 40000 } "S2" = some 80000
    ∧ (80000 : Int) - 1000 > 40000
    ∧ (postAttendance demoEnv srvC "stu" "tok2" 1000 81000 "row1").2 = Response.ok
    ∧ (postAttendance demoEnv srvC "stu" "tok2" 1000 81000 "row1").1.db.attendance
        = [{ id := "row1", session_id := "sess", student_id := "stu", scan_ts := 1000 }] := by
  decide

end PE3
